import Mathlib

set_option maxHeartbeats 1000000

/-!
Shallow embedding of the Book Management API (`src/main.go`).

The Go program keeps a process-global `map[int]Book` guarded by a mutex and
serves five HTTP handlers.  We model the map as an association list with
distinct keys (`Store`), JSON-decoded request bodies as `Option Payload`
(`none` = malformed JSON; a `Payload` records which of the five Book fields
the JSON object supplied, absent fields fall back to Go zero values exactly
as `encoding/json` leaves them), and `strconv.Atoi` / `strings.TrimPrefix`
as executable string functions over the character data.  Every handler holds
the single mutex for its whole body, so each handler is modelled as one
atomic function `Store → … → Response × Store`.
-/

/-- `Book` mirrors the Go struct (`src/main.go` lines 13-19). -/
structure Book where
  ID : Int
  Title : String
  Description : String
  Author : String
  PublicationYear : Int
deriving DecidableEq

/-- The in-memory store `books : map[int]Book`, modelled as an association
list from id to `Book`. -/
abbrev Store := List (Int × Book)

/-- Go map read `books[k]`. -/
def mapGet (s : Store) (k : Int) : Option Book :=
  match s with
  | [] => none
  | (k', v) :: rest => if k' = k then some v else mapGet rest k

/-- Go map write `books[k] = v`: overwrite the entry for `k` if present,
otherwise add one. -/
def mapSet (s : Store) (k : Int) (v : Book) : Store :=
  match s with
  | [] => [(k, v)]
  | (k', v') :: rest => if k' = k then (k, v) :: rest else (k', v') :: mapSet rest k v

/-- Go `delete(books, k)`. -/
def mapDelete (s : Store) (k : Int) : Store :=
  match s with
  | [] => []
  | (k', v') :: rest => if k' = k then mapDelete rest k else (k', v') :: mapDelete rest k

/-- A well-formed JSON object body: which of the five Book fields the JSON
text supplies.  `json.Decoder.Decode` leaves absent fields at their Go zero
value. -/
structure Payload where
  id : Option Int := none
  title : Option String := none
  description : Option String := none
  author : Option String := none
  publicationYear : Option Int := none
deriving DecidableEq

/-- `json.NewDecoder(r.Body).Decode(&book)` on a well-formed object:
supplied fields are taken from the JSON, absent fields keep the zero value
of the `Book` struct. -/
def decodePayload (p : Payload) : Book where
  ID := p.id.getD 0
  Title := p.title.getD ""
  Description := p.description.getD ""
  Author := p.author.getD ""
  PublicationYear := p.publicationYear.getD 0

/-- Decimal digit run for `strconv.Atoi`: all characters must be digits. -/
def parseDigits : List Char → Nat → Option Nat
  | [], acc => some acc
  | c :: rest, acc =>
      if c.isDigit then parseDigits rest (10 * acc + (c.toNat - 48)) else none

/-- `strconv.Atoi`: optional sign followed by at least one digit. -/
def atoi (str : String) : Option Int :=
  match str.data with
  | [] => none
  | '-' :: rest =>
      match rest with
      | [] => none
      | _ :: _ => (parseDigits rest 0).map fun n => -(n : Int)
  | '+' :: rest =>
      match rest with
      | [] => none
      | _ :: _ => (parseDigits rest 0).map fun n => (n : Int)
  | cs => (parseDigits cs 0).map fun n => (n : Int)

/-- `strings.TrimPrefix(path, "/books/")`. -/
def idSegment (path : String) : String :=
  if ("/books/".data).isPrefixOf path.data then
    { data := path.data.drop ("/books/".data).length }
  else path

/-- Response bodies we distinguish: empty (204), plain-text error message
(`http.Error`), one JSON-encoded book, the whole JSON-encoded map. -/
inductive RespBody where
  | empty
  | text (msg : String)
  | jsonBook (b : Book)
  | jsonStore (s : List (Int × Book))
deriving DecidableEq

/-- An HTTP response: status code and body. -/
structure Response where
  status : Nat
  body : RespBody
deriving DecidableEq

/-- `getAllBooks` (`src/main.go` lines 49-63). -/
def getAllBooks (s : Store) : Response × Store :=
  (⟨200, RespBody.jsonStore s⟩, s)

/-- `getBookById` (`src/main.go` lines 65-90). -/
def getBookById (s : Store) (path : String) : Response × Store :=
  match atoi (idSegment path) with
  | none => (⟨400, RespBody.text "Invalid book ID"⟩, s)
  | some id =>
      match mapGet s id with
      | none => (⟨404, RespBody.text "Book not found"⟩, s)
      | some book => (⟨200, RespBody.jsonBook book⟩, s)

/-- `createBook` (`src/main.go` lines 92-121): decode body, reject zero id,
reject duplicate id, then store under the body's id.  The request path is
never consulted. -/
def createBook (s : Store) (body : Option Payload) : Response × Store :=
  match body with
  | none => (⟨400, RespBody.text "Invalid input"⟩, s)
  | some p =>
      if (decodePayload p).ID = 0 then (⟨400, RespBody.text "Book id is required"⟩, s)
      else
        match mapGet s (decodePayload p).ID with
        | some _ => (⟨409, RespBody.text "Book already exists"⟩, s)
        | none =>
            (⟨201, RespBody.jsonBook (decodePayload p)⟩,
              mapSet s (decodePayload p).ID (decodePayload p))

/-- `updateBook` (`src/main.go` lines 123-160): parse path id, check
existence (404), then decode body (400), check id match (400), then replace
wholesale. -/
def updateBook (s : Store) (path : String) (body : Option Payload) : Response × Store :=
  match atoi (idSegment path) with
  | none => (⟨400, RespBody.text "Invalid book ID"⟩, s)
  | some id =>
      match mapGet s id with
      | none => (⟨404, RespBody.text "Book not found"⟩, s)
      | some _ =>
          match body with
          | none => (⟨400, RespBody.text "Invalid input"⟩, s)
          | some p =>
              if (decodePayload p).ID ≠ id then
                (⟨400, RespBody.text "Book id in the URL must match the id in the body"⟩, s)
              else
                (⟨200, RespBody.jsonBook (decodePayload p)⟩,
                  mapSet s id (decodePayload p))

/-- `deleteBook` (`src/main.go` lines 162-183). -/
def deleteBook (s : Store) (path : String) : Response × Store :=
  match atoi (idSegment path) with
  | none => (⟨400, RespBody.text "Invalid book ID"⟩, s)
  | some id =>
      match mapGet s id with
      | none => (⟨404, RespBody.text "Book not found"⟩, s)
      | some _ => (⟨204, RespBody.empty⟩, mapDelete s id)

/-- An HTTP request as far as this server reads it: method string, URL
path, and the JSON-decode outcome of the body. -/
structure Request where
  method : String
  path : String
  body : Option Payload
deriving DecidableEq

/-- The item route pattern: `http.HandleFunc("/books/", …)` matches every
path with prefix `/books/`. -/
def isBooksItemPath (path : String) : Bool :=
  ("/books/".data).isPrefixOf path.data

/-- `main`'s routing (`src/main.go` lines 26-46): the exact pattern
`/books` wins over the prefix pattern `/books/`; the item route dispatches
on the method string with a 405 default; other paths get the mux 404. -/
def handleRequest (s : Store) (r : Request) : Response × Store :=
  if r.path = "/books" then getAllBooks s
  else if isBooksItemPath r.path then
    if r.method = "GET" then getBookById s r.path
    else if r.method = "POST" then createBook s r.body
    else if r.method = "PUT" then updateBook s r.path r.body
    else if r.method = "DELETE" then deleteBook s r.path
    else (⟨405, RespBody.text "Unsupported method"⟩, s)
  else (⟨404, RespBody.text "404 page not found"⟩, s)

/-- Store states reachable from the empty store by any sequence of
requests. -/
inductive Reachable : Store → Prop where
  | empty : Reachable []
  | step (s : Store) (r : Request) : Reachable s → Reachable (handleRequest s r).2

/-- A batch of concurrent create requests, executed in the serial order the
store's mutex imposes (each handler holds `mtx` for its whole body, so any
concurrent execution is equivalent to some sequential order, i.e. to this
function applied to some permutation).  Returns the status codes in order
and the final store. -/
def runCreates (s : Store) (ps : List Payload) : List Nat × Store :=
  match ps with
  | [] => ([], s)
  | p :: rest =>
      let out := createBook s (some p)
      let tail := runCreates out.2 rest
      (out.1.status :: tail.1, tail.2)

/-- The store invariant of the Go map: keys are pairwise distinct, and
every entry is keyed by its own book's `ID` field. -/
def storeInv (s : Store) : Prop :=
  (s.map Prod.fst).Nodup ∧ ∀ kb ∈ s, (kb.2).ID = kb.1

/-! ### Association-list lemmas for the Go map operations -/

theorem mapGet_mapSet_self (s : Store) (k : Int) (v : Book) :
    mapGet (mapSet s k v) k = some v := by
  induction s with
  | nil => simp [mapSet, mapGet]
  | cons kv rest ih =>
      obtain ⟨k', v'⟩ := kv
      by_cases h : k' = k <;> simp [mapSet, mapGet, h, ih]

theorem mem_mapSet_self (s : Store) (k : Int) (v : Book) : (k, v) ∈ mapSet s k v := by
  induction s with
  | nil => simp [mapSet]
  | cons kv rest ih =>
      obtain ⟨k', v'⟩ := kv
      by_cases h : k' = k <;> simp [mapSet, h, ih]

theorem mapGet_mapDelete_self (s : Store) (k : Int) : mapGet (mapDelete s k) k = none := by
  induction s with
  | nil => simp [mapDelete, mapGet]
  | cons kv rest ih =>
      obtain ⟨k', v'⟩ := kv
      by_cases h : k' = k <;> simp [mapDelete, mapGet, h, ih]

theorem mem_mapDelete (s : Store) (k : Int) (kb : Int × Book)
    (h : kb ∈ mapDelete s k) : kb ∈ s := by
  induction s with
  | nil => simp [mapDelete] at h
  | cons kv rest ih =>
      obtain ⟨k', v'⟩ := kv
      by_cases hk : k' = k
      · simp only [mapDelete, if_pos hk] at h
        exact List.mem_cons_of_mem _ (ih h)
      · simp only [mapDelete, if_neg hk, List.mem_cons] at h
        rcases h with h | h
        · exact h ▸ List.mem_cons_self _ _
        · exact List.mem_cons_of_mem _ (ih h)

theorem key_mem_mapSet (s : Store) (k : Int) (v : Book) (a : Int)
    (h : a ∈ (mapSet s k v).map Prod.fst) : a = k ∨ a ∈ s.map Prod.fst := by
  induction s with
  | nil => simpa [mapSet] using h
  | cons kv rest ih =>
      obtain ⟨k', v'⟩ := kv
      by_cases hk : k' = k
      · simp only [mapSet, if_pos hk, List.map_cons, List.mem_cons] at h
        rcases h with h | h
        · exact Or.inl h
        · exact Or.inr (by simp [h])
      · simp only [mapSet, if_neg hk, List.map_cons, List.mem_cons] at h
        rcases h with h | h
        · exact Or.inr (by simp [h])
        · rcases ih h with h | h
          · exact Or.inl h
          · exact Or.inr (by simp [h])

theorem nodup_keys_mapSet (s : Store) (k : Int) (v : Book)
    (h : (s.map Prod.fst).Nodup) : ((mapSet s k v).map Prod.fst).Nodup := by
  induction s with
  | nil => simp [mapSet]
  | cons kv rest ih =>
      obtain ⟨k', v'⟩ := kv
      simp only [List.map_cons, List.nodup_cons] at h
      by_cases hk : k' = k
      · simp only [mapSet, if_pos hk, List.map_cons, List.nodup_cons]
        exact ⟨hk ▸ h.1, h.2⟩
      · simp only [mapSet, if_neg hk, List.map_cons, List.nodup_cons]
        refine ⟨fun hmem => ?_, ih h.2⟩
        rcases key_mem_mapSet rest k v k' hmem with he | hmem
        · exact hk he
        · exact h.1 hmem

theorem nodup_keys_mapDelete (s : Store) (k : Int)
    (h : (s.map Prod.fst).Nodup) : ((mapDelete s k).map Prod.fst).Nodup := by
  induction s with
  | nil => simp [mapDelete]
  | cons kv rest ih =>
      obtain ⟨k', v'⟩ := kv
      simp only [List.map_cons, List.nodup_cons] at h
      by_cases hk : k' = k
      · simp only [mapDelete, if_pos hk]
        exact ih h.2
      · simp only [mapDelete, if_neg hk, List.map_cons, List.nodup_cons]
        refine ⟨fun hmem => ?_, ih h.2⟩
        rcases List.mem_map.mp hmem with ⟨kb, hkb, hfst⟩
        exact h.1 (List.mem_map.mpr ⟨kb, mem_mapDelete rest k kb hkb, hfst⟩)

theorem keyed_mapSet (s : Store) (k : Int) (v : Book)
    (h : ∀ kb ∈ s, (kb.2).ID = kb.1) (hv : v.ID = k) :
    ∀ kb ∈ mapSet s k v, (kb.2).ID = kb.1 := by
  induction s with
  | nil =>
      intro kb hkb
      simp only [mapSet, List.mem_singleton] at hkb
      simp [hkb, hv]
  | cons kv rest ih =>
      obtain ⟨k', v'⟩ := kv
      intro kb hkb
      by_cases hk : k' = k
      · simp only [mapSet, if_pos hk, List.mem_cons] at hkb
        rcases hkb with hkb | hkb
        · simp [hkb, hv]
        · exact h kb (List.mem_cons_of_mem _ hkb)
      · simp only [mapSet, if_neg hk, List.mem_cons] at hkb
        rcases hkb with hkb | hkb
        · exact h kb (hkb ▸ List.mem_cons_self _ _)
        · exact ih (fun x hx => h x (List.mem_cons_of_mem _ hx)) kb hkb

/-! ### Routing and handler computation lemmas -/

theorem itemPath_ne_books {p : String} (h : isBooksItemPath p = true) : p ≠ "/books" := by
  intro he
  rw [he] at h
  exact absurd h (by decide)

theorem handleRequest_books (s : Store) (m : String) (b : Option Payload) :
    handleRequest s ⟨m, "/books", b⟩ = (⟨200, RespBody.jsonStore s⟩, s) := by
  unfold handleRequest
  rw [if_pos rfl]
  rfl

theorem handleRequest_get (s : Store) (path : String) (b : Option Payload)
    (h : isBooksItemPath path = true) :
    handleRequest s ⟨"GET", path, b⟩ = getBookById s path := by
  unfold handleRequest
  rw [if_neg (itemPath_ne_books h), if_pos h, if_pos rfl]

theorem handleRequest_post (s : Store) (path : String) (b : Option Payload)
    (h : isBooksItemPath path = true) :
    handleRequest s ⟨"POST", path, b⟩ = createBook s b := by
  unfold handleRequest
  rw [if_neg (itemPath_ne_books h), if_pos h]
  rfl

theorem handleRequest_put (s : Store) (path : String) (b : Option Payload)
    (h : isBooksItemPath path = true) :
    handleRequest s ⟨"PUT", path, b⟩ = updateBook s path b := by
  unfold handleRequest
  rw [if_neg (itemPath_ne_books h), if_pos h]
  rfl

theorem handleRequest_del (s : Store) (path : String) (b : Option Payload)
    (h : isBooksItemPath path = true) :
    handleRequest s ⟨"DELETE", path, b⟩ = deleteBook s path := by
  unfold handleRequest
  rw [if_neg (itemPath_ne_books h), if_pos h]
  rfl

theorem createBook_success (s : Store) (p : Payload)
    (hnz : (decodePayload p).ID ≠ 0) (habs : mapGet s (decodePayload p).ID = none) :
    createBook s (some p) =
      (⟨201, RespBody.jsonBook (decodePayload p)⟩,
        mapSet s (decodePayload p).ID (decodePayload p)) := by
  simp only [createBook, if_neg hnz, habs]

theorem createBook_conflict (s : Store) (p : Payload) (b : Book)
    (hnz : (decodePayload p).ID ≠ 0) (hb : mapGet s (decodePayload p).ID = some b) :
    createBook s (some p) = (⟨409, RespBody.text "Book already exists"⟩, s) := by
  simp only [createBook, if_neg hnz, hb]

theorem getBookById_found (s : Store) (path : String) (i : Int) (b : Book)
    (hparse : atoi (idSegment path) = some i) (hb : mapGet s i = some b) :
    getBookById s path = (⟨200, RespBody.jsonBook b⟩, s) := by
  simp only [getBookById, hparse, hb]

theorem updateBook_absent (s : Store) (path : String) (i : Int) (b : Option Payload)
    (hparse : atoi (idSegment path) = some i) (habs : mapGet s i = none) :
    updateBook s path b = (⟨404, RespBody.text "Book not found"⟩, s) := by
  simp only [updateBook, hparse, habs]

theorem updateBook_malformed (s : Store) (path : String) (i : Int) (bk : Book)
    (hparse : atoi (idSegment path) = some i) (hbk : mapGet s i = some bk) :
    updateBook s path none = (⟨400, RespBody.text "Invalid input"⟩, s) := by
  simp only [updateBook, hparse, hbk]

theorem updateBook_mismatch (s : Store) (path : String) (i : Int) (bk : Book) (p : Payload)
    (hparse : atoi (idSegment path) = some i) (hbk : mapGet s i = some bk)
    (hne : (decodePayload p).ID ≠ i) :
    updateBook s path (some p) =
      (⟨400, RespBody.text "Book id in the URL must match the id in the body"⟩, s) := by
  simp only [updateBook, hparse, hbk, if_pos hne]

theorem updateBook_success (s : Store) (path : String) (i : Int) (bk : Book) (p : Payload)
    (hparse : atoi (idSegment path) = some i) (hbk : mapGet s i = some bk)
    (heq : (decodePayload p).ID = i) :
    updateBook s path (some p) =
      (⟨200, RespBody.jsonBook (decodePayload p)⟩, mapSet s i (decodePayload p)) := by
  simp only [updateBook, hparse, hbk, if_neg (not_not_intro heq)]

theorem deleteBook_found (s : Store) (path : String) (i : Int) (bk : Book)
    (hparse : atoi (idSegment path) = some i) (hbk : mapGet s i = some bk) :
    deleteBook s path = (⟨204, RespBody.empty⟩, mapDelete s i) := by
  simp only [deleteBook, hparse, hbk]

theorem deleteBook_absent (s : Store) (path : String) (i : Int)
    (hparse : atoi (idSegment path) = some i) (habs : mapGet s i = none) :
    deleteBook s path = (⟨404, RespBody.text "Book not found"⟩, s) := by
  simp only [deleteBook, hparse, habs]

/-! ### The store is only ever touched through its five operations -/

theorem getBookById_store (s : Store) (path : String) : (getBookById s path).2 = s := by
  unfold getBookById
  split
  · rfl
  · split <;> rfl

theorem createBook_store_cases (s : Store) (b : Option Payload) :
    (createBook s b).2 = s ∨ (createBook s b).1.status = 201 := by
  unfold createBook
  split
  · exact Or.inl rfl
  · split
    · exact Or.inl rfl
    · split
      · exact Or.inl rfl
      · exact Or.inr rfl

theorem updateBook_store_cases (s : Store) (path : String) (b : Option Payload) :
    (updateBook s path b).2 = s ∨ (updateBook s path b).1.status = 200 := by
  unfold updateBook
  split
  · exact Or.inl rfl
  · split
    · exact Or.inl rfl
    · split
      · exact Or.inl rfl
      · split
        · exact Or.inl rfl
        · exact Or.inr rfl

theorem deleteBook_store_cases (s : Store) (path : String) :
    (deleteBook s path).2 = s ∨ (deleteBook s path).1.status = 204 := by
  unfold deleteBook
  split
  · exact Or.inl rfl
  · split
    · exact Or.inl rfl
    · exact Or.inr rfl

theorem handleRequest_store_cases (s : Store) (r : Request) :
    (handleRequest s r).2 = s ∨ (handleRequest s r).1.status = 200 ∨
    (handleRequest s r).1.status = 201 ∨ (handleRequest s r).1.status = 204 := by
  unfold handleRequest
  split
  · exact Or.inl rfl
  · split
    · split
      · exact Or.inl (getBookById_store s _)
      · split
        · rcases createBook_store_cases s r.body with h | h
          · exact Or.inl h
          · exact Or.inr (Or.inr (Or.inl h))
        · split
          · rcases updateBook_store_cases s r.path r.body with h | h
            · exact Or.inl h
            · exact Or.inr (Or.inl h)
          · split
            · rcases deleteBook_store_cases s r.path with h | h
              · exact Or.inl h
              · exact Or.inr (Or.inr (Or.inr h))
            · exact Or.inl rfl
    · exact Or.inl rfl

/-! ### Invariant preservation -/

theorem createBook_inv (s : Store) (b : Option Payload) (h : storeInv s) :
    storeInv (createBook s b).2 := by
  unfold createBook
  split
  · exact h
  · split
    · exact h
    · split
      · exact h
      · exact ⟨nodup_keys_mapSet _ _ _ h.1, keyed_mapSet _ _ _ h.2 rfl⟩

theorem updateBook_inv (s : Store) (path : String) (b : Option Payload) (h : storeInv s) :
    storeInv (updateBook s path b).2 := by
  unfold updateBook
  split
  · exact h
  · split
    · exact h
    · split
      · exact h
      · split
        · exact h
        · rename_i heq
          exact ⟨nodup_keys_mapSet _ _ _ h.1, keyed_mapSet _ _ _ h.2 (not_not.mp heq)⟩

theorem deleteBook_inv (s : Store) (path : String) (h : storeInv s) :
    storeInv (deleteBook s path).2 := by
  unfold deleteBook
  split
  · exact h
  · split
    · exact h
    · exact ⟨nodup_keys_mapDelete _ _ h.1,
        fun kb hkb => h.2 kb (mem_mapDelete _ _ kb hkb)⟩

theorem handleRequest_inv (s : Store) (r : Request) (h : storeInv s) :
    storeInv (handleRequest s r).2 := by
  unfold handleRequest
  split
  · exact h
  · split
    · split
      · rw [getBookById_store]
        exact h
      · split
        · exact createBook_inv s r.body h
        · split
          · exact updateBook_inv s r.path r.body h
          · split
            · exact deleteBook_inv s r.path h
            · exact h
    · exact h

/-! ### Claim theorems -/

/-- Claim C2: in every store state reachable from the empty store by any
sequence of requests (in particular any sequence of create, update, and
delete operations), at most one Book exists per id value — the stored keys
are pairwise distinct — and every stored entry is keyed by its own Book's
id field. -/
theorem c2_store_invariant (s : Store) (h : Reachable s) :
    ((s.map Prod.fst).Nodup) ∧ ∀ kb ∈ s, (kb.2).ID = kb.1 := by
  induction h with
  | empty => exact ⟨List.nodup_nil, by simp⟩
  | step s' r _ ih => exact handleRequest_inv s' r ih

theorem c2_store_invariant_witness :
    (((handleRequest [] ⟨"POST", "/books/7", some { id := some 7 }⟩).2.map Prod.fst).Nodup) ∧
    ∀ kb ∈ (handleRequest [] ⟨"POST", "/books/7", some { id := some 7 }⟩).2,
      (kb.2).ID = kb.1 :=
  c2_store_invariant _
    (Reachable.step [] ⟨"POST", "/books/7", some { id := some 7 }⟩ Reachable.empty)

/-- Claim C5: every request answered with an error status (400, 404, 405
or 409) leaves the store exactly as it was; in particular a PUT to
`/books/5` whose body carries id 6 is answered 400 and changes nothing. -/
theorem c5_error_responses_preserve_store (s : Store) (r : Request)
    (h : (handleRequest s r).1.status = 400 ∨ (handleRequest s r).1.status = 404 ∨
      (handleRequest s r).1.status = 405 ∨ (handleRequest s r).1.status = 409) :
    (handleRequest s r).2 = s := by
  rcases handleRequest_store_cases s r with h2 | h2 | h2 | h2
  · exact h2
  all_goals rcases h with h | h | h | h <;> rw [h2] at h <;> simp at h

theorem c5_error_responses_preserve_store_witness :
    (handleRequest [(5, ⟨5, "t", "", "a", 1999⟩)]
        ⟨"PUT", "/books/5", some { id := some 6 }⟩).2 = [(5, ⟨5, "t", "", "a", 1999⟩)] :=
  c5_error_responses_preserve_store _ _ (Or.inl (by decide))

/-- Claim C7: a POST whose body fails to decode gets 400; a decoded body
with id zero gets 400; a decoded nonzero id already stored gets 409; in
each case the response is the exact error response (so never 201) and the
store is returned unmodified. -/
theorem c7_create_error_cases (s : Store) (path : String)
    (hp : isBooksItemPath path = true) :
    handleRequest s ⟨"POST", path, none⟩ = (⟨400, RespBody.text "Invalid input"⟩, s) ∧
    (∀ p : Payload, (decodePayload p).ID = 0 →
      handleRequest s ⟨"POST", path, some p⟩ =
        (⟨400, RespBody.text "Book id is required"⟩, s)) ∧
    (∀ (p : Payload) (b : Book), (decodePayload p).ID ≠ 0 →
      mapGet s (decodePayload p).ID = some b →
      handleRequest s ⟨"POST", path, some p⟩ =
        (⟨409, RespBody.text "Book already exists"⟩, s)) := by
  refine ⟨?_, ?_, ?_⟩
  · rw [handleRequest_post s path none hp]
    rfl
  · intro p h0
    rw [handleRequest_post s path (some p) hp]
    simp only [createBook, if_pos h0]
  · intro p b hnz hb
    rw [handleRequest_post s path (some p) hp]
    exact createBook_conflict s p b hnz hb

theorem c7_create_error_cases_witness :
    handleRequest [] ⟨"POST", "/books/1", none⟩ =
      (⟨400, RespBody.text "Invalid input"⟩, []) ∧
    handleRequest [] ⟨"POST", "/books/1", some { title := some "x" }⟩ =
      (⟨400, RespBody.text "Book id is required"⟩, []) ∧
    handleRequest [(3, ⟨3, "", "", "", 0⟩)] ⟨"POST", "/books/1", some { id := some 3 }⟩ =
      (⟨409, RespBody.text "Book already exists"⟩, [(3, ⟨3, "", "", "", 0⟩)]) :=
  ⟨(c7_create_error_cases [] "/books/1" (by decide)).1,
   (c7_create_error_cases [] "/books/1" (by decide)).2.1 { title := some "x" } (by decide),
   (c7_create_error_cases [(3, ⟨3, "", "", "", 0⟩)] "/books/1" (by decide)).2.2
     { id := some 3 } ⟨3, "", "", "", 0⟩ (by decide) (by decide)⟩

/-- Claim C8: the create handler never consults the path: two POST
requests to any two item-route paths (numeric or not) with the same body
and the same store state produce identical responses and identical
resulting stores. -/
theorem c8_create_ignores_path (s : Store) (p1 p2 : String) (b : Option Payload)
    (h1 : isBooksItemPath p1 = true) (h2 : isBooksItemPath p2 = true) :
    handleRequest s ⟨"POST", p1, b⟩ = handleRequest s ⟨"POST", p2, b⟩ := by
  rw [handleRequest_post s p1 b h1, handleRequest_post s p2 b h2]

theorem c8_create_ignores_path_witness :
    handleRequest [] ⟨"POST", "/books/123", some { id := some 7 }⟩ =
      handleRequest [] ⟨"POST", "/books/abc", some { id := some 7 }⟩ :=
  c8_create_ignores_path [] "/books/123" "/books/abc" (some { id := some 7 })
    (by decide) (by decide)

/-- Claim C10: the collection route does no method dispatch — every
request whose path is exactly `/books`, whatever its method, is answered by
the list-all handler with 200 and the full id-to-Book JSON object — and a
405 can only arise on the `/books/` item route. -/
theorem c10_collection_route_no_dispatch :
    (∀ (s : Store) (m : String) (b : Option Payload),
      handleRequest s ⟨m, "/books", b⟩ = (⟨200, RespBody.jsonStore s⟩, s)) ∧
    (∀ (s : Store) (r : Request), (handleRequest s r).1.status = 405 →
      isBooksItemPath r.path = true ∧ r.path ≠ "/books") := by
  constructor
  · exact handleRequest_books
  · intro s r h
    unfold handleRequest at h
    by_cases h1 : r.path = "/books"
    · rw [if_pos h1] at h
      simp [getAllBooks] at h
    · rw [if_neg h1] at h
      by_cases h2 : isBooksItemPath r.path
      · exact ⟨h2, h1⟩
      · rw [if_neg h2] at h
        simp at h

theorem c10_collection_route_no_dispatch_witness :
    handleRequest [] ⟨"PATCH", "/books", some { id := some 1 }⟩ =
      (⟨200, RespBody.jsonStore []⟩, []) ∧
    isBooksItemPath "/books/1" = true ∧ ("/books/1" : String) ≠ "/books" :=
  ⟨c10_collection_route_no_dispatch.1 [] "PATCH" (some { id := some 1 }),
   c10_collection_route_no_dispatch.2 [] ⟨"PATCH", "/books/1", none⟩ (by decide)⟩

/-- Claim C1: a POST to any item-route path whose body decodes to a Book
with a nonzero id not currently stored is answered 201 with that Book as
JSON, and the book is immediately retrievable: a GET whose path id parses
to that id returns the identical record (all five fields equal), and the
book appears in the list-all result. -/
theorem c1_create_round_trip (s : Store) (p : Payload) (cpath gpath : String)
    (hc : isBooksItemPath cpath = true) (hg : isBooksItemPath gpath = true)
    (hparse : atoi (idSegment gpath) = some (decodePayload p).ID)
    (hnz : (decodePayload p).ID ≠ 0)
    (habs : mapGet s (decodePayload p).ID = none) :
    (handleRequest s ⟨"POST", cpath, some p⟩).1 =
      ⟨201, RespBody.jsonBook (decodePayload p)⟩ ∧
    handleRequest (handleRequest s ⟨"POST", cpath, some p⟩).2 ⟨"GET", gpath, none⟩ =
      (⟨200, RespBody.jsonBook (decodePayload p)⟩,
        (handleRequest s ⟨"POST", cpath, some p⟩).2) ∧
    handleRequest (handleRequest s ⟨"POST", cpath, some p⟩).2 ⟨"GET", "/books", none⟩ =
      (⟨200, RespBody.jsonStore (handleRequest s ⟨"POST", cpath, some p⟩).2⟩,
        (handleRequest s ⟨"POST", cpath, some p⟩).2) ∧
    ((decodePayload p).ID, decodePayload p) ∈ (handleRequest s ⟨"POST", cpath, some p⟩).2 := by
  rw [handleRequest_post s cpath (some p) hc, createBook_success s p hnz habs]
  refine ⟨rfl, ?_, ?_, ?_⟩
  · rw [handleRequest_get _ gpath none hg,
      getBookById_found _ gpath (decodePayload p).ID (decodePayload p) hparse
        (mapGet_mapSet_self s _ _)]
  · exact handleRequest_books _ "GET" none
  · exact mem_mapSet_self s _ _

theorem c1_create_round_trip_witness :
    (handleRequest [] ⟨"POST", "/books/7", some { id := some 7, title := some "T" }⟩).1 =
      ⟨201, RespBody.jsonBook (decodePayload { id := some 7, title := some "T" })⟩ ∧
    handleRequest (handleRequest [] ⟨"POST", "/books/7", some { id := some 7, title := some "T" }⟩).2
        ⟨"GET", "/books/7", none⟩ =
      (⟨200, RespBody.jsonBook (decodePayload { id := some 7, title := some "T" })⟩,
        (handleRequest [] ⟨"POST", "/books/7", some { id := some 7, title := some "T" }⟩).2) ∧
    handleRequest (handleRequest [] ⟨"POST", "/books/7", some { id := some 7, title := some "T" }⟩).2
        ⟨"GET", "/books", none⟩ =
      (⟨200, RespBody.jsonStore
          (handleRequest [] ⟨"POST", "/books/7", some { id := some 7, title := some "T" }⟩).2⟩,
        (handleRequest [] ⟨"POST", "/books/7", some { id := some 7, title := some "T" }⟩).2) ∧
    ((decodePayload { id := some 7, title := some "T" }).ID,
        decodePayload { id := some 7, title := some "T" }) ∈
      (handleRequest [] ⟨"POST", "/books/7", some { id := some 7, title := some "T" }⟩).2 :=
  c1_create_round_trip [] { id := some 7, title := some "T" } "/books/7" "/books/7"
    (by decide) (by decide) (by decide) (by decide) (by decide)

/-- The update handler checks existence of the path id before it reads the
body: a PUT to a stored-free id is answered 404 whatever the body, and the
malformed-body and id-mismatch 400s arise only when the path id is
present. -/
theorem c3_update_existence_checked_first (s : Store) (path : String) (i : Int)
    (hp : isBooksItemPath path = true) (hparse : atoi (idSegment path) = some i) :
    (mapGet s i = none → ∀ b : Option Payload,
      handleRequest s ⟨"PUT", path, b⟩ = (⟨404, RespBody.text "Book not found"⟩, s)) ∧
    (∀ bk : Book, mapGet s i = some bk →
      handleRequest s ⟨"PUT", path, none⟩ = (⟨400, RespBody.text "Invalid input"⟩, s) ∧
      ∀ p : Payload, (decodePayload p).ID ≠ i →
        handleRequest s ⟨"PUT", path, some p⟩ =
          (⟨400, RespBody.text "Book id in the URL must match the id in the body"⟩, s)) := by
  constructor
  · intro habs b
    rw [handleRequest_put s path b hp]
    exact updateBook_absent s path i b hparse habs
  · intro bk hbk
    constructor
    · rw [handleRequest_put s path none hp]
      exact updateBook_malformed s path i bk hparse hbk
    · intro p hne
      rw [handleRequest_put s path (some p) hp]
      exact updateBook_mismatch s path i bk p hparse hbk hne

/-- A PUT with a malformed body addressed to an id that is not stored is
answered 404, not 400: the code checks existence before decoding the body,
contrary to the claimed order. -/
theorem c3_counterexample_put_absent_malformed :
    (handleRequest [] ⟨"PUT", "/books/5", none⟩).1.status = 404 ∧
    (handleRequest [] ⟨"PUT", "/books/5", none⟩).1.status ≠ 400 := by
  decide

theorem c3_update_existence_checked_first_witness :
    handleRequest [] ⟨"PUT", "/books/5", some { id := some 5 }⟩ =
      (⟨404, RespBody.text "Book not found"⟩, []) ∧
    handleRequest [(5, ⟨5, "", "", "", 0⟩)] ⟨"PUT", "/books/5", none⟩ =
      (⟨400, RespBody.text "Invalid input"⟩, [(5, ⟨5, "", "", "", 0⟩)]) ∧
    handleRequest [(5, ⟨5, "", "", "", 0⟩)] ⟨"PUT", "/books/5", some { id := some 6 }⟩ =
      (⟨400, RespBody.text "Book id in the URL must match the id in the body"⟩,
        [(5, ⟨5, "", "", "", 0⟩)]) :=
  ⟨(c3_update_existence_checked_first [] "/books/5" 5 (by decide) (by decide)).1
      (by decide) (some { id := some 5 }),
   ((c3_update_existence_checked_first [(5, ⟨5, "", "", "", 0⟩)] "/books/5" 5
      (by decide) (by decide)).2 ⟨5, "", "", "", 0⟩ (by decide)).1,
   ((c3_update_existence_checked_first [(5, ⟨5, "", "", "", 0⟩)] "/books/5" 5
      (by decide) (by decide)).2 ⟨5, "", "", "", 0⟩ (by decide)).2
     { id := some 6 } (by decide)⟩

/-- Claim C4: a successful PUT replaces the stored record wholesale — the
subsequent lookup of that id returns exactly the decoded payload, whose
omitted fields are the Go zero values, never a merge with the old
record. -/
theorem c4_update_replaces_wholesale (s : Store) (path : String) (p : Payload)
    (i : Int) (old : Book)
    (hp : isBooksItemPath path = true) (hparse : atoi (idSegment path) = some i)
    (hold : mapGet s i = some old) (hid : (decodePayload p).ID = i) :
    (handleRequest s ⟨"PUT", path, some p⟩).1 =
      ⟨200, RespBody.jsonBook (decodePayload p)⟩ ∧
    mapGet (handleRequest s ⟨"PUT", path, some p⟩).2 i = some (decodePayload p) := by
  rw [handleRequest_put s path (some p) hp,
    updateBook_success s path i old p hparse hold hid]
  exact ⟨rfl, mapGet_mapSet_self s i (decodePayload p)⟩

theorem c4_update_replaces_wholesale_witness :
    mapGet (handleRequest [(1, ⟨1, "A", "", "X", 2000⟩)]
        ⟨"PUT", "/books/1", some { id := some 1, title := some "B" }⟩).2 1 =
      some ⟨1, "B", "", "", 0⟩ :=
  (c4_update_replaces_wholesale [(1, ⟨1, "A", "", "X", 2000⟩)] "/books/1"
    { id := some 1, title := some "B" } 1 ⟨1, "A", "", "X", 2000⟩
    (by decide) (by decide) (by decide) (by decide)).2

/-- Claim C6: deleting a stored id is answered 204 with an empty body and
removes the entry, so an immediately repeated DELETE of the same id is
answered 404; deleting an absent id is answered 404. -/
theorem c6_delete_not_idempotent (s : Store) (path : String) (i : Int)
    (hp : isBooksItemPath path = true) (hparse : atoi (idSegment path) = some i) :
    (∀ bk : Book, mapGet s i = some bk →
      handleRequest s ⟨"DELETE", path, none⟩ = (⟨204, RespBody.empty⟩, mapDelete s i) ∧
      mapGet (mapDelete s i) i = none ∧
      handleRequest (mapDelete s i) ⟨"DELETE", path, none⟩ =
        (⟨404, RespBody.text "Book not found"⟩, mapDelete s i)) ∧
    (mapGet s i = none →
      handleRequest s ⟨"DELETE", path, none⟩ = (⟨404, RespBody.text "Book not found"⟩, s)) := by
  constructor
  · intro bk hbk
    refine ⟨?_, mapGet_mapDelete_self s i, ?_⟩
    · rw [handleRequest_del s path none hp]
      exact deleteBook_found s path i bk hparse hbk
    · rw [handleRequest_del _ path none hp]
      exact deleteBook_absent _ path i hparse (mapGet_mapDelete_self s i)
  · intro habs
    rw [handleRequest_del s path none hp]
    exact deleteBook_absent s path i hparse habs

theorem c6_delete_not_idempotent_witness :
    handleRequest [(7, ⟨7, "", "", "", 0⟩)] ⟨"DELETE", "/books/7", none⟩ =
      (⟨204, RespBody.empty⟩, mapDelete [(7, ⟨7, "", "", "", 0⟩)] 7) ∧
    mapGet (mapDelete [(7, ⟨7, "", "", "", 0⟩)] 7) 7 = none ∧
    handleRequest (mapDelete [(7, ⟨7, "", "", "", 0⟩)] 7) ⟨"DELETE", "/books/7", none⟩ =
      (⟨404, RespBody.text "Book not found"⟩, mapDelete [(7, ⟨7, "", "", "", 0⟩)] 7) :=
  (c6_delete_not_idempotent [(7, ⟨7, "", "", "", 0⟩)] "/books/7" 7
    (by decide) (by decide)).1 ⟨7, "", "", "", 0⟩ (by decide)

/-! ### Serialized concurrent creates -/

theorem runCreates_conflict (s : Store) (i : Int) (ps : List Payload) (b : Book)
    (hnz : i ≠ 0) (hb : mapGet s i = some b)
    (hall : ∀ p ∈ ps, (decodePayload p).ID = i) :
    (runCreates s ps).1 = ps.map (fun _ => 409) ∧ (runCreates s ps).2 = s := by
  induction ps with
  | nil => exact ⟨rfl, rfl⟩
  | cons p rest ih =>
      have hid := hall p (List.mem_cons_self p rest)
      have hcb : createBook s (some p) = (⟨409, RespBody.text "Book already exists"⟩, s) :=
        createBook_conflict s p b (by rw [hid]; exact hnz) (by rw [hid]; exact hb)
      have ih2 := ih (fun q hq => hall q (List.mem_cons_of_mem p hq))
      simp only [runCreates, hcb, List.map_cons]
      exact ⟨by rw [ih2.1], ih2.2⟩

/-- Claim C9: each handler holds the single mutex for its entire body, so
the effects of concurrent requests apply in some serial order; running any
(nonempty) batch of create requests that all carry the same nonzero id
against a store not containing that id, in any serial order, yields exactly
one 201 and 409 for all the remaining requests. -/
theorem c9_concurrent_same_id_creates (s : Store) (i : Int) (ps : List Payload)
    (hnz : i ≠ 0) (habs : mapGet s i = none)
    (hall : ∀ p ∈ ps, (decodePayload p).ID = i) (hne : ps ≠ []) :
    (runCreates s ps).1.count 201 = 1 ∧
    (runCreates s ps).1.count 409 = ps.length - 1 := by
  cases ps with
  | nil => exact absurd rfl hne
  | cons p rest =>
      have hid := hall p (List.mem_cons_self p rest)
      have hcb := createBook_success s p (by rw [hid]; exact hnz) (by rw [hid]; exact habs)
      have hget : mapGet (mapSet s (decodePayload p).ID (decodePayload p)) i =
          some (decodePayload p) := by
        rw [← hid]
        exact mapGet_mapSet_self s _ _
      have hconf := runCreates_conflict (mapSet s (decodePayload p).ID (decodePayload p))
        i rest (decodePayload p) hnz hget (fun q hq => hall q (List.mem_cons_of_mem p hq))
      simp only [runCreates, hcb]
      rw [hconf.1]
      constructor
      · simp [List.count_cons, List.count_replicate]
      · simp [List.count_cons, List.count_replicate]

theorem c9_concurrent_same_id_creates_witness :
    (runCreates [] [{ id := some 9, title := some "a" }, { id := some 9 },
        { id := some 9, title := some "b" }]).1.count 201 = 1 ∧
    (runCreates [] [{ id := some 9, title := some "a" }, { id := some 9 },
        { id := some 9, title := some "b" }]).1.count 409 =
      ([{ id := some 9, title := some "a" }, { id := some 9 },
        { id := some 9, title := some "b" }] : List Payload).length - 1 :=
  c9_concurrent_same_id_creates [] 9
    [{ id := some 9, title := some "a" }, { id := some 9 },
      { id := some 9, title := some "b" }]
    (by decide) (by decide) (by decide) (by decide)
